import Mathlib

/-!
Shallow embedding of the cloudflare-ddns updater (directory `src/ddns`):
the configuration data model (`config.py`), the reconciliation engine
(`updater.py`), the IP resolver (`ip.py`) and the multi-target
orchestration (`__main__.py`).  The provider HTTP layer (`cloudflare.py`)
is modelled as an abstract oracle for its four operations, and the engine
additionally returns the trace of provider calls it makes, so that
"exactly once" / "zero calls" statements become statements about that
trace.  Python exceptions are modelled with `Except`.
-/

deriving instance DecidableEq for Except

namespace Ddns

/-- Python exception classes raised by the program. -/
inductive PyErr where
  | valueError (msg : String)
  | ipDetectionError (msg : String)
  | cloudflareAPIError (msg : String)
  | keyError (msg : String)
  deriving DecidableEq, Repr

/-- Python truthiness of an optional string: `None` and `""` are falsy. -/
def pyTruthyStr : Option String → Bool
  | none => false
  | some s => s ≠ ""

/-- `os.getenv(...) or None`: collapse an empty string to `None`. -/
def orNone : Option String → Option String
  | none => none
  | some s => if s = "" then none else some s

/-- `x or d` on an optional string with a string default. -/
def pyOrStr (o : Option String) (d : String) : String :=
  match o with
  | none => d
  | some s => if s = "" then d else s

/-- The `Settings` dataclass of `config.py`; `ttl` and `interval` are
Python ints. -/
structure Settings where
  api_token : Option String
  api_key : Option String
  email : Option String
  zone_name : String
  record_name : String
  record_type : String := "A"
  ttl : Int := 300
  proxied : Bool := false
  interval : Option Int := none
  dry_run : Bool := false
  deriving DecidableEq, Repr

/-- Auth headers as an ordered key/value list. -/
abbrev Headers := List (String × String)

/-- `Settings.auth_headers` of `config.py`: a truthy token yields the
bearer header; otherwise truthy key and email yield the email/key pair;
otherwise `ValueError`. -/
def Settings.auth_headers (s : Settings) : Except PyErr Headers :=
  if pyTruthyStr s.api_token then
    Except.ok [("Authorization", "Bearer " ++ s.api_token.getD "")]
  else if pyTruthyStr s.api_key && pyTruthyStr s.email then
    Except.ok [("X-Auth-Email", s.email.getD ""), ("X-Auth-Key", s.api_key.getD "")]
  else
    Except.error (PyErr.valueError "No Cloudflare authentication provided. Set CLOUDFLARE_API_TOKEN or (CLOUDFLARE_EMAIL + CLOUDFLARE_API_KEY)")

/-- A remote DNS record as `run_once` reads it: the dict keys `id` and
`content`, each possibly absent. -/
structure DnsRecord where
  id : Option String
  content : Option String
  deriving DecidableEq, Repr

/-- The result dict of `run_once`: `action` and `ip` are present in every
branch; `record_id` and `reason` model keys that may be absent. -/
structure RunResult where
  action : String
  ip : String
  record_id : Option String := none
  reason : Option String := none
  deriving DecidableEq, Repr

/-- One provider call (a function of `cloudflare.py`) with the arguments
it was given. -/
inductive PCall where
  | getZone (headers : Headers) (zone_name : String)
  | findRecord (headers : Headers) (zone_id rtype name : String)
  | create (headers : Headers) (zone_id rtype name content : String) (ttl : Int) (proxied : Bool)
  | update (headers : Headers) (zone_id record_id rtype name content : String) (ttl : Int) (proxied : Bool)
  deriving DecidableEq, Repr

/-- Whether a provider call mutates remote state. -/
def PCall.isMutation : PCall → Bool
  | .create _ _ _ _ _ _ _ => true
  | .update _ _ _ _ _ _ _ _ => true
  | _ => false

/-- Oracle for the four provider operations of `cloudflare.py`; each may
raise (`CloudflareAPIError` or transport errors). -/
structure Provider where
  getZoneId : Headers → String → Except PyErr String
  findRecord : Headers → String → String → String → Except PyErr (Option DnsRecord)
  createRecord : Headers → String → String → String → String → Int → Bool → Except PyErr DnsRecord
  updateRecord : Headers → String → String → String → String → String → Int → Bool → Except PyErr DnsRecord

/-- `run_once` of `updater.py` below the line `current_ip = ip_getter(...)`:
the cached-IP short circuit, then zone lookup, record lookup, and the
create/update/noop decision.  Returns the result (or the exception raised)
together with the ordered trace of provider calls made. -/
def run_once_core (p : Provider) (s : Settings) (last_ip : Option String)
    (current_ip : String) : Except PyErr RunResult × List PCall :=
  if pyTruthyStr last_ip && (last_ip == some current_ip) then
    (Except.ok { action := "noop", ip := current_ip, reason := some "unchanged-cached" }, [])
  else
    match s.auth_headers with
    | Except.error e => (Except.error e, [])
    | Except.ok headers =>
      let c1 := [PCall.getZone headers s.zone_name]
      match p.getZoneId headers s.zone_name with
      | Except.error e => (Except.error e, c1)
      | Except.ok zone_id =>
        let c2 := c1 ++ [PCall.findRecord headers zone_id s.record_type s.record_name]
        match p.findRecord headers zone_id s.record_type s.record_name with
        | Except.error e => (Except.error e, c2)
        | Except.ok (some record) =>
          if record.content == some current_ip then
            (Except.ok { action := "noop", ip := current_ip, record_id := record.id,
                         reason := some "unchanged-remote" }, c2)
          else if s.dry_run then
            (Except.ok { action := "update-skip-dry-run", ip := current_ip,
                         record_id := record.id }, c2)
          else
            match record.id with
            | none => (Except.error (PyErr.keyError "id"), c2)
            | some rid =>
              let c3 := c2 ++ [PCall.update headers zone_id rid s.record_type s.record_name current_ip s.ttl s.proxied]
              match p.updateRecord headers zone_id rid s.record_type s.record_name current_ip s.ttl s.proxied with
              | Except.error e => (Except.error e, c3)
              | Except.ok updated =>
                (Except.ok { action := "updated", ip := current_ip, record_id := updated.id }, c3)
        | Except.ok none =>
          if s.dry_run then
            (Except.ok { action := "create-skip-dry-run", ip := current_ip }, c2)
          else
            let c3 := c2 ++ [PCall.create headers zone_id s.record_type s.record_name current_ip s.ttl s.proxied]
            match p.createRecord headers zone_id s.record_type s.record_name current_ip s.ttl s.proxied with
            | Except.error e => (Except.error e, c3)
            | Except.ok created =>
              (Except.ok { action := "created", ip := current_ip, record_id := created.id }, c3)

/-- `run_once` of `updater.py` with an injected `ip_getter` (the resolver
is called first; everything after is `run_once_core`). -/
def run_once (p : Provider) (s : Settings) (last_ip : Option String)
    (ip_getter : String → Except PyErr String) : Except PyErr RunResult × List PCall :=
  match ip_getter s.record_type with
  | Except.error e => (Except.error e, [])
  | Except.ok current_ip => run_once_core p s last_ip current_ip

/-! ### Python string primitives

`str.upper`, `str.strip` and `str.split` are modelled over `String.data`
so that every definition evaluates by kernel reduction. -/

/-- Python `str.upper()`. -/
def pyUpper (s : String) : String := ⟨s.data.map Char.toUpper⟩

/-- Python `str.strip()`: drop whitespace from both ends. -/
def pyStrip (s : String) : String :=
  ⟨((s.data.dropWhile Char.isWhitespace).reverse.dropWhile Char.isWhitespace).reverse⟩

/-- Split a character list on a separator; every string has at least one
(possibly empty) field, as in Python `str.split(sep)`. -/
def splitChars (sep : Char) : List Char → List (List Char)
  | [] => [[]]
  | c :: cs =>
    let r := splitChars sep cs
    if c = sep then [] :: r
    else (c :: r.headD []) :: r.tail

/-- Python `s.split(sep)` for a one-character separator. -/
def pySplit (sep : Char) (s : String) : List String :=
  (splitChars sep s.data).map (fun l => ⟨l⟩)

/-! ### ip.py -/

/-- Outcome of `requests.get(url)`: a raised transport exception, or a
response carrying its `ok` flag and body text. -/
inductive HttpResp where
  | fail (msg : String)
  | resp (ok : Bool) (text : String)
  deriving DecidableEq, Repr

/-- An outcome `_query` advances past: a transport failure or a response
whose `ok` flag is false. -/
def notSuccess : HttpResp → Bool
  | .fail _ => true
  | .resp ok _ => !ok

/-- Interpolation of `last_err` into the failure message (`None` when no
candidate raised). -/
def lastErrStr : Option String → String
  | none => "None"
  | some e => e

/-- `_DEFAULT_IPV4_ENDPOINTS` of `ip.py`. -/
def defaultIPv4Endpoints : List String :=
  ["https://ipv4.icanhazip.com/", "https://api.ipify.org/", "https://checkip.amazonaws.com/"]

/-- `_DEFAULT_IPV6_ENDPOINTS` of `ip.py`. -/
def defaultIPv6Endpoints : List String :=
  ["https://ipv6.icanhazip.com/", "https://api64.ipify.org/"]

/-- `_query` of `ip.py` over an oracle for `requests.get`: try each
endpoint in order and return the stripped body of the first response with
`ok` true; a raised transport error updates `last_err`; when the list is
exhausted raise `IPDetectionError`.  Also returns the ordered list of
endpoints actually queried. -/
def ipQuery (http : String → HttpResp) :
    List String → Option String → Except PyErr String × List String
  | [], last_err =>
    (Except.error (PyErr.ipDetectionError
      ("Unable to detect IP. Last error: " ++ lastErrStr last_err)), [])
  | url :: rest, last_err =>
    match http url with
    | HttpResp.fail e =>
      let r := ipQuery http rest (some e)
      (r.1, url :: r.2)
    | HttpResp.resp ok text =>
      if ok then (Except.ok (pyStrip text), [url])
      else
        let r := ipQuery http rest last_err
        (r.1, url :: r.2)

/-- `\d{1,3}`: one to three ASCII digits. -/
def isDigits1to3 (s : String) : Bool :=
  decide (1 ≤ s.data.length) && decide (s.data.length ≤ 3) && s.data.all Char.isDigit

/-- The language of `_IPV4_RE` (`^(?:\d{1,3}\.){3}\d{1,3}$`): four runs of
one to three digits separated by dots.  The source applies it only to
stripped text, so `$` is end of string. -/
def ipv4Match (s : String) : Bool :=
  match pySplit '.' s with
  | [a, b, c, d] => isDigits1to3 a && isDigits1to3 b && isDigits1to3 c && isDigits1to3 d
  | _ => false

/-- `[0-9a-fA-F]{0,4}`: zero to four hex digits. -/
def isHex0to4 (s : String) : Bool :=
  decide (s.data.length ≤ 4) &&
    s.data.all (fun c => c.isDigit || (('a' ≤ c && c ≤ 'f') || ('A' ≤ c && c ≤ 'F')))

/-- The language of `_IPV6_RE` (`^([0-9a-fA-F]{0,4}:){2,7}[0-9a-fA-F]{0,4}$`):
two to seven colon-terminated hex groups and a final group, i.e. three to
eight colon-separated groups of at most four hex digits. -/
def ipv6Match (s : String) : Bool :=
  let groups := pySplit ':' s
  decide (3 ≤ groups.length) && decide (groups.length ≤ 8) && groups.all isHex0to4

/-- `get_public_ip` of `ip.py` over an oracle for `requests.get`:
uppercase the record type, query the family's endpoint list, then
validate the answer against the family's pattern; validation failure
raises `IPDetectionError`, an unknown record type raises `ValueError`.
Also returns the ordered list of endpoints queried. -/
def get_public_ip (http : String → HttpResp) (record_type : String) :
    Except PyErr String × List String :=
  let rt := pyUpper record_type
  if rt = "A" then
    let r := ipQuery http defaultIPv4Endpoints none
    match r.1 with
    | Except.error e => (Except.error e, r.2)
    | Except.ok ip =>
      if ipv4Match ip then (Except.ok ip, r.2)
      else (Except.error (PyErr.ipDetectionError ("Invalid IPv4 detected: " ++ ip)), r.2)
  else if rt = "AAAA" then
    let r := ipQuery http defaultIPv6Endpoints none
    match r.1 with
    | Except.error e => (Except.error e, r.2)
    | Except.ok ip =>
      if ipv6Match ip then (Except.ok ip, r.2)
      else (Except.error (PyErr.ipDetectionError ("Invalid IPv6 detected: " ++ ip)), r.2)
  else
    (Except.error (PyErr.valueError ("Unsupported record type: " ++ record_type)), [])

/-- The candidate endpoint list `get_public_ip` uses for a record type. -/
def famEndpoints (rt : String) : List String :=
  if rt = "A" then defaultIPv4Endpoints else defaultIPv6Endpoints

/-- The address-syntax check `get_public_ip` uses for a record type. -/
def famMatch (rt : String) : String → Bool :=
  if rt = "A" then ipv4Match else ipv6Match

/-- The validation-failure message head for a record type. -/
def famInvalidMsg (rt : String) : String :=
  if rt = "A" then "Invalid IPv4 detected: " else "Invalid IPv6 detected: "

/-- Whether an outcome is a raised `IPDetectionError`. -/
def isIpDetectionError : Except PyErr String → Bool
  | Except.error (PyErr.ipDetectionError _) => true
  | _ => false

/-! ### updater.py `run_loop` and `__main__.py` multi-target orchestration -/

/-- `run_loop` of `updater.py`, observed for `n` iterations of the
`while True` body: each iteration runs `run_once` with the carried
`last_ip`; on success the carried value becomes the result's IP
(`last_ip = result.get("ip")`), an exception is caught and leaves it
unchanged; every iteration ends in one `sleep`.  Returns the carried
value after `n` iterations and the number of sleeps performed. -/
def run_loop_iter (p : Provider) (s : Settings) (g : String → Except PyErr String) :
    Nat → Option String → Option String × Nat
  | 0, last => (last, 0)
  | Nat.succ n, last =>
    let r := (run_once p s last g).1
    let last2 := match r with
      | Except.ok res => some res.ip
      | Except.error _ => last
    let o := run_loop_iter p s g n last2
    (o.1, o.2 + 1)

/-- The per-cycle IP cache `ip_cache`: record type to resolved address. -/
abbrev IpCache := List (String × String)

/-- Association lookup for the IP cache (`rt in ip_cache`). -/
def cacheLookup : IpCache → String → Option String
  | [], _ => none
  | (k, v) :: rest, rt => if k = rt then some v else cacheLookup rest rt

/-- The caching `ip_getter` closure built by `_run_multi_once` and by each
cycle of `_run_multi_loop`: on a cache miss the underlying resolver is
invoked and, on success, memoized (`ip_cache[rt] = _get_public_ip(rt)`);
a raised resolver error leaves the cache unchanged.  Returns the outcome,
the updated cache, and the record types for which the underlying resolver
was actually invoked. -/
def cachedIpGet (getIp : String → Except PyErr String) (cache : IpCache)
    (rt : String) : Except PyErr String × IpCache × List String :=
  match cacheLookup cache rt with
  | some ip => (Except.ok ip, cache, [])
  | none =>
    match getIp rt with
    | Except.ok ip => (Except.ok ip, cache ++ [(rt, ip)], [rt])
    | Except.error e => (Except.error e, cache, [rt])

/-- `run_once` as invoked with the caching `ip_getter`: step 1 goes
through the cache, everything after is `run_once_core`. -/
def run_once_cached (p : Provider) (s : Settings) (last_ip : Option String)
    (getIp : String → Except PyErr String) (cache : IpCache) :
    (Except PyErr RunResult × List PCall) × IpCache × List String :=
  let r := cachedIpGet getIp cache s.record_type
  match r.1 with
  | Except.error e => ((Except.error e, []), r.2.1, r.2.2)
  | Except.ok current_ip => (run_once_core p s last_ip current_ip, r.2.1, r.2.2)

/-- Observation of one multi-target sweep: the per-target outcomes in
order, the final IP cache, the record types for which the underlying
resolver was invoked (in order, with multiplicity), and the exit code. -/
structure MultiOut where
  results : List (Except PyErr RunResult)
  cache : IpCache
  rlog : List String
  exit_code : Nat
  deriving Repr

/-- `_run_multi_once` of `__main__.py` from a given cache: each target is
run with the shared caching `ip_getter`; an exception from one target sets
the exit code to 1 and processing continues with the remaining targets. -/
def runMultiOnceFrom (p : Provider) (getIp : String → Except PyErr String) :
    List Settings → IpCache → MultiOut
  | [], cache => { results := [], cache := cache, rlog := [], exit_code := 0 }
  | s :: rest, cache =>
    let r := run_once_cached p s none getIp cache
    let o := runMultiOnceFrom p getIp rest r.2.1
    { results := r.1.1 :: o.results
      cache := o.cache
      rlog := r.2.2 ++ o.rlog
      exit_code := match r.1.1 with
        | Except.error _ => 1
        | Except.ok _ => o.exit_code }

/-- `_run_multi_once`: one sweep starting from the empty cache
(`ip_cache: Dict[str, str] = {}`). -/
def runMultiOnce (p : Provider) (getIp : String → Except PyErr String)
    (targets : List Settings) : MultiOut :=
  runMultiOnceFrom p getIp targets []

/-- The `last_ips` mapping of `_run_multi_loop`, keyed by
`(zone_name, record_name)`. -/
abbrev LastIps := List ((String × String) × String)

/-- `last_ips.get(key)`. -/
def lastLookup : LastIps → String × String → Option String
  | [], _ => none
  | (k, v) :: rest, key => if k = key then some v else lastLookup rest key

/-- Python dict assignment `last_ips[key] = v`: rebind in place or append
a new binding. -/
def lastStore : LastIps → String × String → String → LastIps
  | [], key, v => [(key, v)]
  | (k, w) :: rest, key, v =>
    if k = key then (k, v) :: rest else (k, w) :: lastStore rest key v

/-- Observation of one cycle of `_run_multi_loop`. -/
structure CycleOut where
  results : List (Except PyErr RunResult)
  cache : IpCache
  rlog : List String
  lastIps : LastIps
  deriving Repr

/-- The body of one `while True` iteration of `_run_multi_loop`, from a
given IP cache: each target runs with its cached last-seen IP; on success
`last_ips[key]` becomes the result's IP, an exception is caught, leaves
the entry unchanged and the sweep continues with the next target. -/
def multiCycleFrom (p : Provider) (getIp : String → Except PyErr String) :
    List Settings → IpCache → LastIps → CycleOut
  | [], cache, last => { results := [], cache := cache, rlog := [], lastIps := last }
  | s :: rest, cache, last =>
    let key := (s.zone_name, s.record_name)
    let r := run_once_cached p s (lastLookup last key) getIp cache
    let last2 := match r.1.1 with
      | Except.ok res => lastStore last key res.ip
      | Except.error _ => last
    let o := multiCycleFrom p getIp rest r.2.1 last2
    { results := r.1.1 :: o.results
      cache := o.cache
      rlog := r.2.2 ++ o.rlog
      lastIps := o.lastIps }

/-- One cycle of `_run_multi_loop`: the IP cache is cleared at the start
of every cycle, so each cycle starts from the empty cache. -/
def multiCycle (p : Provider) (getIp : String → Except PyErr String)
    (targets : List Settings) (last : LastIps) : CycleOut :=
  multiCycleFrom p getIp targets [] last

/-! ### config.py loaders -/

/-- Python `str.lower()`. -/
def pyLower (s : String) : String := ⟨s.data.map Char.toLower⟩

/-- `_parse_bool` of `config.py`: `None` yields the default; otherwise
membership of the lowercased value in `{"1", "true", "yes", "on"}`. -/
def parseBoolEnv (val : Option String) (default : Bool := false) : Bool :=
  match val with
  | none => default
  | some v =>
    (pyLower v == "1") || (pyLower v == "true") || (pyLower v == "yes") || (pyLower v == "on")

/-- `_split_csv` of `config.py`: `None` or empty yields `[]`; otherwise
split on commas, strip each item, and keep the truthy (non-empty) ones. -/
def splitCsv (value : Option String) : List String :=
  match value with
  | none => []
  | some v =>
    if v = "" then []
    else ((pySplit ',' v).map pyStrip).filter (fun item => item ≠ "")

/-- Decimal digit accumulation; `none` on a non-digit. -/
def digitsVal : List Char → Nat → Option Nat
  | [], acc => some acc
  | c :: cs, acc => if c.isDigit then digitsVal cs (acc * 10 + (c.toNat - 48)) else none

/-- Python `int(s)` in base 10: optional surrounding whitespace, optional
sign, at least one digit; otherwise `ValueError`. -/
def pyInt (s : String) : Except PyErr Int :=
  let cs := (pyStrip s).data
  let signed : Option Int :=
    match cs with
    | '-' :: rest => if rest = [] then none else (digitsVal rest 0).map (fun n => -(n : Int))
    | '+' :: rest => if rest = [] then none else (digitsVal rest 0).map (fun n => (n : Int))
    | _ => if cs = [] then none else (digitsVal cs 0).map (fun n => (n : Int))
  match signed with
  | some n => Except.ok n
  | none => Except.error (PyErr.valueError ("invalid literal for int() with base 10: " ++ s))

/-- `int(os.getenv("CLOUDFLARE_TTL") or 300)`. -/
def ttlOfEnv (o : Option String) : Except PyErr Int :=
  match o with
  | none => Except.ok 300
  | some s => if s = "" then Except.ok 300 else pyInt s

/-- `interval_env = os.getenv("DDNS_INTERVAL") or None` followed by
`interval = int(interval_env) if interval_env else None`. -/
def intervalOfEnv (o : Option String) : Except PyErr (Option Int) :=
  match o with
  | none => Except.ok none
  | some s =>
    if s = "" then Except.ok none
    else match pyInt s with
      | Except.ok n => Except.ok (some n)
      | Except.error e => Except.error e

/-- Python `xs * n`: `n` concatenated copies of the list. -/
def pyListMul (xs : List String) : Nat → List String
  | 0 => []
  | Nat.succ n => xs ++ pyListMul xs n

/-- The `Settings(...)` construction in the `load_all_settings` loop: all
fields but zone and record name are the shared loop-invariant values. -/
def mkTarget (api_token api_key email : Option String) (record_type : String)
    (ttl : Int) (proxied : Bool) (interval : Option Int) (dry_run : Bool)
    (zone record : String) : Settings :=
  { api_token := api_token, api_key := api_key, email := email,
    zone_name := zone, record_name := record, record_type := record_type,
    ttl := ttl, proxied := proxied, interval := interval, dry_run := dry_run }

/-- An environment, as read through `os.getenv`. -/
abbrev Env := String → Option String

/-- The zone-list selection of `load_all_settings`: the multi variable
when non-empty, else the single-zone variable, else a `ValueError`. -/
def zonesOfEnv (env : Env) : Except PyErr (List String) :=
  if 0 < (splitCsv (env "CLOUDFLARE_ZONE_NAMES")).length then
    Except.ok (splitCsv (env "CLOUDFLARE_ZONE_NAMES"))
  else if pyOrStr (env "CLOUDFLARE_ZONE_NAME") "" = "" then
    Except.error (PyErr.valueError "CLOUDFLARE_ZONE_NAME or CLOUDFLARE_ZONE_NAMES is required")
  else Except.ok [pyOrStr (env "CLOUDFLARE_ZONE_NAME") ""]

/-- The zone/record pairing step of `load_all_settings`: a non-empty
record-name list must match the zone list's length, except that a single
zone is replicated (`zones * len(record_names_multi)`); with no
record-name list, a global record name applies to every zone, else each
zone's record name defaults to the zone itself. -/
def pairZonesRecords (zones record_names_multi : List String)
    (global_record_name : Option String) : Except PyErr (List String × List String) :=
  if record_names_multi.length ≠ 0 then
    if record_names_multi.length ≠ zones.length then
      if zones.length = 1 then
        Except.ok (pyListMul zones record_names_multi.length, record_names_multi)
      else
        Except.error (PyErr.valueError
          "CLOUDFLARE_RECORD_NAMES length must match CLOUDFLARE_ZONE_NAMES length")
    else Except.ok (zones, record_names_multi)
  else
    match global_record_name with
    | some g => Except.ok (zones, zones.map (fun _ => g))
    | none => Except.ok (zones, zones)

/-- `load_all_settings` of `config.py` over an environment (`load_env`
only populates the process environment, which `env` subsumes): choose the
zone list, read the shared options (a bad ttl or interval literal raises
`ValueError`, in that order), pair zones with record names, and build one
`Settings` per pair. -/
def load_all_settings (env : Env) : Except PyErr (List Settings) :=
  match zonesOfEnv env with
  | Except.error e => Except.error e
  | Except.ok zones =>
    match ttlOfEnv (env "CLOUDFLARE_TTL") with
    | Except.error e => Except.error e
    | Except.ok ttl =>
      match intervalOfEnv (env "DDNS_INTERVAL") with
      | Except.error e => Except.error e
      | Except.ok interval =>
        match pairZonesRecords zones (splitCsv (env "CLOUDFLARE_RECORD_NAMES"))
            (orNone (env "CLOUDFLARE_RECORD_NAME")) with
        | Except.error e => Except.error e
        | Except.ok zr =>
          Except.ok (List.zipWith
            (mkTarget (orNone (env "CLOUDFLARE_API_TOKEN")) (orNone (env "CLOUDFLARE_API_KEY"))
              (orNone (env "CLOUDFLARE_EMAIL"))
              (pyUpper (pyOrStr (env "CLOUDFLARE_RECORD_TYPE") "A")) ttl
              (parseBoolEnv (env "CLOUDFLARE_PROXIED")) interval
              (parseBoolEnv (env "DDNS_DRY_RUN")))
            zr.1 zr.2)

/-! ### Concrete fixtures (used by witnesses and counterexamples) -/

/-- Environment fixture: single zone `solo.com` with three record names. -/
def envSolo : Env := fun k =>
  if k = "CLOUDFLARE_API_TOKEN" then some "tok"
  else if k = "CLOUDFLARE_ZONE_NAMES" then some "solo.com"
  else if k = "CLOUDFLARE_RECORD_NAMES" then some "a.solo.com,b.solo.com,c.solo.com"
  else none

/-- Environment fixture: two zones with three record names (mismatch). -/
def envMismatch : Env := fun k =>
  if k = "CLOUDFLARE_API_TOKEN" then some "tok"
  else if k = "CLOUDFLARE_ZONE_NAMES" then some "z1.com,z2.com"
  else if k = "CLOUDFLARE_RECORD_NAMES" then some "a.z1.com,b.z1.com,c.z1.com"
  else none

/-- Environment fixture: two zones with two record names. -/
def envTwo : Env := fun k =>
  if k = "CLOUDFLARE_API_TOKEN" then some "tok"
  else if k = "CLOUDFLARE_ZONE_NAMES" then some "z1.com,z2.com"
  else if k = "CLOUDFLARE_RECORD_NAMES" then some "a.z1.com,b.z2.com"
  else none

/-- The two targets `envTwo` loads. -/
def twoTargets : List Settings :=
  [mkTarget (some "tok") none none "A" 300 false none false "z1.com" "a.z1.com",
   mkTarget (some "tok") none none "A" 300 false none false "z2.com" "b.z2.com"]

/-- Environment fixture: token, key and email all populated. -/
def envBoth : Env := fun k =>
  if k = "CLOUDFLARE_API_TOKEN" then some "tok"
  else if k = "CLOUDFLARE_API_KEY" then some "key"
  else if k = "CLOUDFLARE_EMAIL" then some "user@example.com"
  else if k = "CLOUDFLARE_ZONE_NAME" then some "z.com"
  else none

/-- A credential set with both branches populated, as `envBoth` loads it. -/
def sBoth : Settings :=
  { api_token := some "tok", api_key := some "key", email := some "user@example.com",
    zone_name := "z.com", record_name := "z.com" }

/-- A credential set with only the key+email branch populated. -/
def sKeyMail : Settings :=
  { api_token := none, api_key := some "key", email := some "user@example.com",
    zone_name := "z.com", record_name := "z.com" }

/-- A credential set with no populated branch. -/
def sNoAuth : Settings :=
  { api_token := none, api_key := none, email := none,
    zone_name := "z.com", record_name := "z.com" }

/-- Headers produced by the token `"tok"`. -/
def hs0 : Headers := [("Authorization", "Bearer tok")]

/-- A token-authenticated target for `home.example.com` in `example.com`. -/
def s0 : Settings :=
  { api_token := some "tok", api_key := none, email := none,
    zone_name := "example.com", record_name := "home.example.com",
    record_type := "A", ttl := 120, proxied := false,
    interval := none, dry_run := false }

/-- The same target with `dry_run = true`. -/
def s0dry : Settings := { s0 with dry_run := true }

/-- Fixture provider: zone found, no existing record; create/update echo
their content argument. -/
def pAbsent : Provider :=
  { getZoneId := fun _ _ => Except.ok "zid-1"
    findRecord := fun _ _ _ _ => Except.ok none
    createRecord := fun _ _ _ _ content _ _ =>
      Except.ok { id := some "cf-new", content := some content }
    updateRecord := fun _ _ rid _ _ content _ _ =>
      Except.ok { id := some rid, content := some content } }

/-- Fixture provider: zone found and `rec` is the existing record. -/
def pRemote (rec : DnsRecord) : Provider :=
  { getZoneId := fun _ _ => Except.ok "zid-1"
    findRecord := fun _ _ _ _ => Except.ok (some rec)
    createRecord := fun _ _ _ _ content _ _ =>
      Except.ok { id := some "cf-new", content := some content }
    updateRecord := fun _ _ rid _ _ content _ _ =>
      Except.ok { id := some rid, content := some content } }

/-- An existing record holding the stale address `9.9.9.9`. -/
def recOld : DnsRecord := { id := some "rec-9", content := some "9.9.9.9" }

/-- An existing record already holding `3.3.3.3`. -/
def rec33 : DnsRecord := { id := some "rid-3", content := some "3.3.3.3" }

/-- Resolver fixture answering `1.2.3.4` for every record type. -/
def g1234 : String → Except PyErr String := fun _ => Except.ok "1.2.3.4"

/-- Resolver fixture answering `3.3.3.3` for every record type. -/
def g333 : String → Except PyErr String := fun _ => Except.ok "3.3.3.3"

/-- Resolver fixture answering the empty string for every record type. -/
def gEmpty : String → Except PyErr String := fun _ => Except.ok ""

/-- HTTP fixture: the first IPv4 endpoint times out, the second answers
`1.2.3.4` with a trailing newline, the third would also answer. -/
def http0 : String → HttpResp := fun url =>
  if url = "https://ipv4.icanhazip.com/" then HttpResp.fail "timeout"
  else if url = "https://api.ipify.org/" then HttpResp.resp true "1.2.3.4\n"
  else HttpResp.resp true "9.9.9.9"

/-! ### Theorems -/

/-- Claim C1 counterexample: the resolver answers `""` and `run_once` is
called with the non-`None` `last_ip = some ""` equal to that answer, yet
the cached fast path is not taken: provider calls are made and the result
is not the `unchanged-cached` noop (Python `if last_ip and ...` treats the
empty string as false). -/
theorem run_once_empty_cached_ip_not_noop :
    gEmpty s0dry.record_type = Except.ok "" ∧ (some "" : Option String) ≠ none ∧
    run_once pAbsent s0dry (some "") gEmpty =
      (Except.ok { action := "create-skip-dry-run", ip := "" },
       [PCall.getZone hs0 "example.com",
        PCall.findRecord hs0 "zid-1" "A" "home.example.com"]) ∧
    (run_once pAbsent s0dry (some "") gEmpty).2 ≠ [] := by
  decide

/-- Claim C1 (amended: the cached `last_ip` must also be non-empty): for
every target, provider and resolver, if `last_ip` is `some cached` with
`cached ≠ ""` and the resolver returns `cached` for the target's record
type, `run_once` returns the `unchanged-cached` noop and makes zero
provider calls. -/
theorem run_once_unchanged_cached_noop (p : Provider) (s : Settings)
    (g : String → Except PyErr String) (cached : String)
    (hne : cached ≠ "") (hg : g s.record_type = Except.ok cached) :
    run_once p s (some cached) g =
      (Except.ok { action := "noop", ip := cached, reason := some "unchanged-cached" }, []) := by
  simp [run_once, hg, run_once_core, pyTruthyStr, hne]

/-- Witness for `run_once_unchanged_cached_noop` at a concrete target. -/
theorem run_once_unchanged_cached_noop_witness :
    run_once pAbsent s0 (some "1.2.3.4") g1234 =
      (Except.ok { action := "noop", ip := "1.2.3.4", reason := some "unchanged-cached" }, []) :=
  run_once_unchanged_cached_noop pAbsent s0 g1234 "1.2.3.4" (by decide) (by decide)

/-- Claim C2: with `dry_run = false`, when the cached fast path does not
apply and the record lookup reports no existing record, `run_once` makes
exactly the calls zone-lookup, record-lookup, then one create call whose
content is the resolved IP and whose remaining fields are the target's
type, name, ttl and proxied flag, and returns action `created` with the
`record_id` of the provider's response. -/
theorem run_once_creates_when_absent (p : Provider) (s : Settings)
    (last_ip : Option String) (g : String → Except PyErr String)
    (ip : String) (headers : Headers) (zone_id : String) (created : DnsRecord)
    (hg : g s.record_type = Except.ok ip)
    (hfast : (pyTruthyStr last_ip && (last_ip == some ip)) = false)
    (hauth : s.auth_headers = Except.ok headers)
    (hzone : p.getZoneId headers s.zone_name = Except.ok zone_id)
    (hfind : p.findRecord headers zone_id s.record_type s.record_name = Except.ok none)
    (hdry : s.dry_run = false)
    (hcreate : p.createRecord headers zone_id s.record_type s.record_name ip s.ttl s.proxied
      = Except.ok created) :
    run_once p s last_ip g =
      (Except.ok { action := "created", ip := ip, record_id := created.id },
       [PCall.getZone headers s.zone_name,
        PCall.findRecord headers zone_id s.record_type s.record_name,
        PCall.create headers zone_id s.record_type s.record_name ip s.ttl s.proxied]) := by
  simp [run_once, hg, run_once_core, hfast, hauth, hzone, hfind, hdry, hcreate]

/-- Witness for `run_once_creates_when_absent`: the spec's example target
with no existing record and resolved IP `1.2.3.4`. -/
theorem run_once_creates_when_absent_witness :
    run_once pAbsent s0 none g1234 =
      (Except.ok { action := "created", ip := "1.2.3.4", record_id := some "cf-new" },
       [PCall.getZone hs0 "example.com",
        PCall.findRecord hs0 "zid-1" "A" "home.example.com",
        PCall.create hs0 "zid-1" "A" "home.example.com" "1.2.3.4" 120 false]) :=
  run_once_creates_when_absent pAbsent s0 none g1234 "1.2.3.4" hs0 "zid-1"
    { id := some "cf-new", content := some "1.2.3.4" }
    (by decide) (by decide) (by decide) (by decide) (by decide) (by decide) (by decide)

/-- Claim C3: when an existing record is found whose content equals the
freshly resolved IP, `run_once` returns the `unchanged-remote` noop and
the trace holds neither a create nor an update call — for any `last_ip`
that differed from the resolved IP or was absent. -/
theorem run_once_unchanged_remote_noop (p : Provider) (s : Settings)
    (last_ip : Option String) (g : String → Except PyErr String)
    (ip : String) (headers : Headers) (zone_id : String) (rec : DnsRecord)
    (hlast : last_ip = none ∨ last_ip ≠ some ip)
    (hg : g s.record_type = Except.ok ip)
    (hauth : s.auth_headers = Except.ok headers)
    (hzone : p.getZoneId headers s.zone_name = Except.ok zone_id)
    (hfind : p.findRecord headers zone_id s.record_type s.record_name = Except.ok (some rec))
    (hcontent : rec.content = some ip) :
    run_once p s last_ip g =
      (Except.ok { action := "noop", ip := ip, record_id := rec.id,
                   reason := some "unchanged-remote" },
       [PCall.getZone headers s.zone_name,
        PCall.findRecord headers zone_id s.record_type s.record_name]) := by
  have hfast : (pyTruthyStr last_ip && (last_ip == some ip)) = false := by
    rcases hlast with h | h
    · subst h; rfl
    · simp [beq_eq_false_iff_ne.mpr h]
  simp [run_once, hg, run_once_core, hfast, hauth, hzone, hfind, hcontent]

/-- Witness for `run_once_unchanged_remote_noop`: the spec's example with
existing content `3.3.3.3` and resolved IP `3.3.3.3`, under a differing
cached IP. -/
theorem run_once_unchanged_remote_noop_witness :
    run_once (pRemote rec33) s0 (some "9.9.9.9") g333 =
      (Except.ok { action := "noop", ip := "3.3.3.3", record_id := some "rid-3",
                   reason := some "unchanged-remote" },
       [PCall.getZone hs0 "example.com",
        PCall.findRecord hs0 "zid-1" "A" "home.example.com"]) :=
  run_once_unchanged_remote_noop (pRemote rec33) s0 (some "9.9.9.9") g333
    "3.3.3.3" hs0 "zid-1" rec33
    (Or.inr (by decide)) (by decide) (by decide) (by decide) (by decide) (by decide)

/-- Helper for claim C4: with `dry_run = true` no branch of
`run_once_core` appends a create or update call to the trace. -/
theorem run_once_core_dry_trace (p : Provider) (s : Settings)
    (last_ip : Option String) (ip : String) (hdry : s.dry_run = true) :
    ∀ c ∈ (run_once_core p s last_ip ip).2, c.isMutation = false := by
  intro c hc
  unfold run_once_core at hc
  simp only [hdry] at hc
  repeat' split at hc
  all_goals simp_all [PCall.isMutation]
  all_goals (rcases hc with rfl | rfl <;> rfl)

/-- Claim C4: with `dry_run = true`, `run_once` never makes a create or
update provider call, for every provider state, resolver and cached IP;
when the lookup reaches an existing record with differing content the
action is `update-skip-dry-run`, and when it reports no record the action
is `create-skip-dry-run`. -/
theorem run_once_dry_run_never_mutates (p : Provider) (s : Settings)
    (last_ip : Option String) (g : String → Except PyErr String)
    (hdry : s.dry_run = true) :
    (∀ c ∈ (run_once p s last_ip g).2, c.isMutation = false)
    ∧ (∀ ip headers zone_id rec,
        g s.record_type = Except.ok ip →
        (pyTruthyStr last_ip && (last_ip == some ip)) = false →
        s.auth_headers = Except.ok headers →
        p.getZoneId headers s.zone_name = Except.ok zone_id →
        p.findRecord headers zone_id s.record_type s.record_name = Except.ok (some rec) →
        rec.content ≠ some ip →
        (run_once p s last_ip g).1 =
          Except.ok { action := "update-skip-dry-run", ip := ip, record_id := rec.id })
    ∧ (∀ ip headers zone_id,
        g s.record_type = Except.ok ip →
        (pyTruthyStr last_ip && (last_ip == some ip)) = false →
        s.auth_headers = Except.ok headers →
        p.getZoneId headers s.zone_name = Except.ok zone_id →
        p.findRecord headers zone_id s.record_type s.record_name = Except.ok none →
        (run_once p s last_ip g).1 =
          Except.ok { action := "create-skip-dry-run", ip := ip }) := by
  refine ⟨?_, ?_, ?_⟩
  · intro c hc
    unfold run_once at hc
    split at hc
    · simp at hc
    · exact run_once_core_dry_trace p s last_ip _ hdry c hc
  · intro ip headers zone_id rec hg hfast hauth hzone hfind hcontent
    simp [run_once, hg, run_once_core, hfast, hauth, hzone, hfind, hdry,
      beq_eq_false_iff_ne.mpr hcontent]
  · intro ip headers zone_id hg hfast hauth hzone hfind
    simp [run_once, hg, run_once_core, hfast, hauth, hzone, hfind, hdry]

/-- Witness for `run_once_dry_run_never_mutates`: a dry-run target facing
a stale remote record. -/
theorem run_once_dry_run_never_mutates_witness :
    (∀ c ∈ (run_once (pRemote recOld) s0dry none g1234).2, c.isMutation = false)
    ∧ (run_once (pRemote recOld) s0dry none g1234).1 =
        Except.ok { action := "update-skip-dry-run", ip := "1.2.3.4", record_id := some "rec-9" } := by
  have h := run_once_dry_run_never_mutates (pRemote recOld) s0dry none g1234 (by decide)
  exact ⟨h.1, h.2.1 "1.2.3.4" hs0 "zid-1" recOld (by decide) (by decide) (by decide)
    (by decide) (by decide) (by decide)⟩

/-- Helper for claim C6: `ipQuery` skips any prefix of non-success
candidates and returns the stripped body of the first `ok` response,
having queried exactly the prefix and that candidate. -/
theorem ipQuery_first_success (http : String → HttpResp) (t : String)
    (pre : List String) (u : String) (post : List String)
    (hpre : ∀ v ∈ pre, notSuccess (http v) = true)
    (hu : http u = HttpResp.resp true t) :
    ∀ le, ipQuery http (pre ++ u :: post) le = (Except.ok (pyStrip t), pre ++ [u]) := by
  induction pre with
  | nil => intro le; simp [ipQuery, hu]
  | cons v vs ih =>
    intro le
    have hv : notSuccess (http v) = true := hpre v (by simp)
    have ih2 := ih (fun w hw => hpre w (by simp [hw]))
    cases hhv : http v with
    | fail e => simp [ipQuery, hhv, ih2]
    | resp ok text =>
      rw [hhv] at hv
      cases ok with
      | true => simp [notSuccess] at hv
      | false => simp [ipQuery, hhv, ih2]

/-- Helper for claim C6: when every candidate is a transport failure or a
non-`ok` response, `ipQuery` raises `IPDetectionError` after querying the
whole list. -/
theorem ipQuery_all_fail (http : String → HttpResp) (l : List String)
    (hl : ∀ v ∈ l, notSuccess (http v) = true) :
    ∀ le, isIpDetectionError (ipQuery http l le).1 = true ∧ (ipQuery http l le).2 = l := by
  induction l with
  | nil => intro le; simp [ipQuery, isIpDetectionError]
  | cons v vs ih =>
    intro le
    have hv : notSuccess (http v) = true := hl v (by simp)
    have ih2 := ih (fun w hw => hl w (by simp [hw]))
    cases hhv : http v with
    | fail e => simpa [ipQuery, hhv] using ih2 (some e)
    | resp ok text =>
      rw [hhv] at hv
      cases ok with
      | true => simp [notSuccess] at hv
      | false => simpa [ipQuery, hhv] using ih2 le

/-- Claim C6: for either address family, `get_public_ip` tries the
candidates in order, advancing past transport failures and non-success
responses; it raises `IPDetectionError` when every candidate fails, and
when the first successful response exists it queries nothing further and
either returns the stripped body (if it matches the family's syntax) or
raises `IPDetectionError` (if it does not). -/
theorem get_public_ip_failover_spec (http : String → HttpResp) (rt : String)
    (hrt : rt = "A" ∨ rt = "AAAA") :
    ((∀ u ∈ famEndpoints rt, notSuccess (http u) = true) →
      isIpDetectionError (get_public_ip http rt).1 = true
      ∧ (get_public_ip http rt).2 = famEndpoints rt)
    ∧ (∀ pre u post t, famEndpoints rt = pre ++ u :: post →
        (∀ v ∈ pre, notSuccess (http v) = true) →
        http u = HttpResp.resp true t →
        (get_public_ip http rt).2 = pre ++ [u]
        ∧ (famMatch rt (pyStrip t) = true → (get_public_ip http rt).1 = Except.ok (pyStrip t))
        ∧ (famMatch rt (pyStrip t) = false →
            (get_public_ip http rt).1 =
              Except.error (PyErr.ipDetectionError (famInvalidMsg rt ++ pyStrip t)))) := by
  rcases hrt with rfl | rfl
  · constructor
    · intro hall
      simp only [famEndpoints, reduceIte] at hall
      have h := ipQuery_all_fail http defaultIPv4Endpoints hall none
      cases hq : (ipQuery http defaultIPv4Endpoints none).1 with
      | error e =>
        rw [hq] at h
        cases e <;> simp_all [get_public_ip, famEndpoints, pyUpper, isIpDetectionError]
      | ok ip => rw [hq] at h; simp [isIpDetectionError] at h
    · intro pre u post t heps hpre hu
      simp only [famEndpoints, reduceIte] at heps
      have hq : ipQuery http defaultIPv4Endpoints none = (Except.ok (pyStrip t), pre ++ [u]) := by
        rw [heps]; exact ipQuery_first_success http t pre u post hpre hu none
      refine ⟨?_, ?_, ?_⟩
      · cases hm : ipv4Match (pyStrip t) <;> simp [get_public_ip, pyUpper, hq, hm]
      · intro hm
        simp only [famMatch, reduceIte] at hm
        simp [get_public_ip, pyUpper, hq, hm]
      · intro hm
        simp only [famMatch, reduceIte] at hm
        simp [get_public_ip, pyUpper, famInvalidMsg, hq, hm]
  · constructor
    · intro hall
      have hall2 : ∀ u ∈ defaultIPv6Endpoints, notSuccess (http u) = true := hall
      have h := ipQuery_all_fail http defaultIPv6Endpoints hall2 none
      cases hq : (ipQuery http defaultIPv6Endpoints none).1 with
      | error e =>
        rw [hq] at h
        cases e <;> simp_all [get_public_ip, famEndpoints, pyUpper, isIpDetectionError]
      | ok ip => rw [hq] at h; simp [isIpDetectionError] at h
    · intro pre u post t heps hpre hu
      have heps2 : defaultIPv6Endpoints = pre ++ u :: post := heps
      have hq : ipQuery http defaultIPv6Endpoints none = (Except.ok (pyStrip t), pre ++ [u]) := by
        rw [heps2]; exact ipQuery_first_success http t pre u post hpre hu none
      refine ⟨?_, ?_, ?_⟩
      · cases hm : ipv6Match (pyStrip t) <;> simp [get_public_ip, pyUpper, hq, hm]
      · intro hm
        have hm2 : ipv6Match (pyStrip t) = true := hm
        simp [get_public_ip, pyUpper, hq, hm2]
      · intro hm
        have hm2 : ipv6Match (pyStrip t) = false := hm
        simp [get_public_ip, pyUpper, famInvalidMsg, hq, hm2]

/-- Witness for `get_public_ip_failover_spec`: the first IPv4 candidate
fails, the second answers `"1.2.3.4\n"`, and resolution returns the
stripped address having queried exactly the first two candidates. -/
theorem get_public_ip_failover_spec_witness :
    (get_public_ip http0 "A").2 = ["https://ipv4.icanhazip.com/", "https://api.ipify.org/"]
    ∧ (get_public_ip http0 "A").1 = Except.ok "1.2.3.4" := by
  have h := (get_public_ip_failover_spec http0 "A" (Or.inl rfl)).2
    ["https://ipv4.icanhazip.com/"] "https://api.ipify.org/"
    ["https://checkip.amazonaws.com/"] "1.2.3.4\n" (by decide) (by decide) (by decide)
  refine ⟨h.1, ?_⟩
  have h2 := h.2.1 (by decide)
  rw [h2]
  decide

/-- Helper for claim C5: once the cycle cache resolves `rt`, a sweep over
targets that all need `rt` makes no further resolver calls, leaves the
cache unchanged, and reconciles every target against the cached address. -/
theorem runMultiOnceFrom_cached (p : Provider) (getIp : String → Except PyErr String)
    (rt ip : String) :
    ∀ (l : List Settings) (cache : IpCache),
      (∀ s ∈ l, s.record_type = rt) → cacheLookup cache rt = some ip →
      (runMultiOnceFrom p getIp l cache).rlog = []
      ∧ (runMultiOnceFrom p getIp l cache).results
          = l.map (fun s => (run_once_core p s none ip).1)
      ∧ (runMultiOnceFrom p getIp l cache).cache = cache := by
  intro l
  induction l with
  | nil => intro cache _ _; simp [runMultiOnceFrom]
  | cons s rest ih =>
    intro cache hall hcache
    have hrt : s.record_type = rt := hall s (by simp)
    have hstep : run_once_cached p s none getIp cache
        = (run_once_core p s none ip, cache, []) := by
      simp [run_once_cached, cachedIpGet, hrt, hcache]
    obtain ⟨h1, h2, h3⟩ := ih cache (fun w hw => hall w (by simp [hw])) hcache
    simp [runMultiOnceFrom, hstep, h1, h2, h3]

/-- Helper for claim C5: the same cache-hit property for one cycle of the
continuous multi-target loop, for any carried `last_ips`. -/
theorem multiCycleFrom_cached (p : Provider) (getIp : String → Except PyErr String)
    (rt ip : String) :
    ∀ (l : List Settings) (cache : IpCache) (last : LastIps),
      (∀ s ∈ l, s.record_type = rt) → cacheLookup cache rt = some ip →
      (multiCycleFrom p getIp l cache last).rlog = []
      ∧ (multiCycleFrom p getIp l cache last).cache = cache := by
  intro l
  induction l with
  | nil => intro cache last _ _; simp [multiCycleFrom]
  | cons s rest ih =>
    intro cache last hall hcache
    have hrt : s.record_type = rt := hall s (by simp)
    have hstep : run_once_cached p s (lastLookup last (s.zone_name, s.record_name)) getIp cache
        = (run_once_core p s (lastLookup last (s.zone_name, s.record_name)) ip, cache, []) := by
      simp [run_once_cached, cachedIpGet, hrt, hcache]
    have ih2 := fun last2 => ih cache last2 (fun w hw => hall w (by simp [hw])) hcache
    cases hr : (run_once_core p s (lastLookup last (s.zone_name, s.record_name)) ip).1 with
    | ok res =>
      obtain ⟨h1, h2⟩ := ih2 (lastStore last (s.zone_name, s.record_name) res.ip)
      simp [multiCycleFrom, hstep, hr, h1, h2]
    | error e =>
      obtain ⟨h1, h2⟩ := ih2 last
      simp [multiCycleFrom, hstep, hr, h1, h2]

/-- Claim C5: in one multi-target sweep over targets that all need record
type `rt` whose resolution succeeds, the underlying IP resolver is
invoked exactly once (not once per target), every target is reconciled
against that one resolved address, and each cycle of the continuous loop
starts from a fresh cache, again invoking the resolver exactly once. -/
theorem multi_once_single_resolver_call (p : Provider)
    (getIp : String → Except PyErr String) (targets : List Settings)
    (rt ip : String) (hne : targets ≠ [])
    (hall : ∀ s ∈ targets, s.record_type = rt)
    (hget : getIp rt = Except.ok ip) :
    ((runMultiOnce p getIp targets).rlog = [rt]
      ∧ (runMultiOnce p getIp targets).results
          = targets.map (fun s => (run_once_core p s none ip).1))
    ∧ ∀ last : LastIps, (multiCycle p getIp targets last).rlog = [rt] := by
  cases targets with
  | nil => exact absurd rfl hne
  | cons s rest =>
    have hrt : s.record_type = rt := hall s (by simp)
    have hmiss : cachedIpGet getIp [] s.record_type = (Except.ok ip, [(rt, ip)], [rt]) := by
      simp [cachedIpGet, cacheLookup, hrt, hget]
    have hhit : cacheLookup [(rt, ip)] rt = some ip := by simp [cacheLookup]
    have hrest : ∀ w ∈ rest, w.record_type = rt := fun w hw => hall w (by simp [hw])
    constructor
    · have hstep : run_once_cached p s none getIp []
          = (run_once_core p s none ip, [(rt, ip)], [rt]) := by
        simp [run_once_cached, hmiss]
      obtain ⟨h1, h2, _⟩ := runMultiOnceFrom_cached p getIp rt ip rest [(rt, ip)] hrest hhit
      constructor
      · simp [runMultiOnce, runMultiOnceFrom, hstep, h1]
      · simp [runMultiOnce, runMultiOnceFrom, hstep, h2]
    · intro last
      have hstep : run_once_cached p s (lastLookup last (s.zone_name, s.record_name)) getIp []
          = (run_once_core p s (lastLookup last (s.zone_name, s.record_name)) ip, [(rt, ip)], [rt]) := by
        simp [run_once_cached, hmiss]
      cases hr : (run_once_core p s (lastLookup last (s.zone_name, s.record_name)) ip).1 with
      | ok res =>
        obtain ⟨h1, _⟩ := multiCycleFrom_cached p getIp rt ip rest [(rt, ip)]
          (lastStore last (s.zone_name, s.record_name) res.ip) hrest hhit
        simp [multiCycle, multiCycleFrom, hstep, hr, h1]
      | error e =>
        obtain ⟨h1, _⟩ := multiCycleFrom_cached p getIp rt ip rest [(rt, ip)] last hrest hhit
        simp [multiCycle, multiCycleFrom, hstep, hr, h1]

/-- Witness for `multi_once_single_resolver_call`: two A-record targets,
one resolver invocation, both reconciled against `1.2.3.4`. -/
theorem multi_once_single_resolver_call_witness :
    ((runMultiOnce pAbsent g1234 [s0, s0dry]).rlog = ["A"]
      ∧ (runMultiOnce pAbsent g1234 [s0, s0dry]).results
          = [(run_once_core pAbsent s0 none "1.2.3.4").1,
             (run_once_core pAbsent s0dry none "1.2.3.4").1])
    ∧ ∀ last : LastIps, (multiCycle pAbsent g1234 [s0, s0dry] last).rlog = ["A"] := by
  have h := multi_once_single_resolver_call pAbsent g1234 [s0, s0dry] "A" "1.2.3.4"
    (by decide) (by decide) (by decide)
  exact ⟨⟨h.1.1, by simpa using h.1.2⟩, h.2⟩

/-- Helper for claim C7: after a store, looking the key up yields the
stored address. -/
theorem lastLookup_lastStore (last : LastIps) (key : String × String) (v : String) :
    lastLookup (lastStore last key v) key = some v := by
  induction last with
  | nil => simp [lastStore, lastLookup]
  | cons kv rest ih =>
    by_cases hk : kv.1 = key
    · simp [lastStore, lastLookup, hk]
    · simp [lastStore, lastLookup, hk, ih]

/-- Helper for claim C7: a cycle in which every target's reconciliation
raised leaves the whole `last_ips` mapping unchanged. -/
theorem multiCycleFrom_all_error (p : Provider) (getIp : String → Except PyErr String) :
    ∀ (l : List Settings) (cache : IpCache) (last : LastIps),
      (∀ r ∈ (multiCycleFrom p getIp l cache last).results, ∃ e, r = Except.error e) →
      (multiCycleFrom p getIp l cache last).lastIps = last := by
  intro l
  induction l with
  | nil => intro cache last _; simp [multiCycleFrom]
  | cons s rest ih =>
    intro cache last hall
    cases hr : (run_once_cached p s (lastLookup last (s.zone_name, s.record_name)) getIp cache).1.1 with
    | ok res =>
      exfalso
      have hmem : Except.ok res ∈ (multiCycleFrom p getIp (s :: rest) cache last).results := by
        simp [multiCycleFrom, hr]
      obtain ⟨e, he⟩ := hall _ hmem
      exact Except.noConfusion he
    | error e =>
      have htail : ∀ r ∈ (multiCycleFrom p getIp rest
          (run_once_cached p s (lastLookup last (s.zone_name, s.record_name)) getIp cache).2.1
          last).results, ∃ e2, r = Except.error e2 := by
        intro r hrmem
        exact hall r (by simp [multiCycleFrom, hr, hrmem])
      simp [multiCycleFrom, hr, ih _ _ htail]

/-- Claim C7: in the continuous loops the carried last-seen IP is updated
only after a successful reconciliation, with the IP that reconciliation
used.  For `run_loop`: every iteration sleeps exactly once whether or not
it raised (the loop is never terminated), a successful iteration carries
its result's IP into the rest of the loop, and a raising iteration
carries the previous value unchanged.  For `_run_multi_loop`: a cycle in
which every target raised leaves `last_ips` unchanged, and a successful
single-target cycle stores exactly the reconciliation's IP under the
target's key. -/
theorem loop_carries_last_ip_spec (p : Provider) (g : String → Except PyErr String) :
    (∀ (s : Settings) (n : Nat) (last : Option String),
      (run_loop_iter p s g n last).2 = n)
    ∧ (∀ (s : Settings) (n : Nat) (last : Option String) (res : RunResult),
        (run_once p s last g).1 = Except.ok res →
        run_loop_iter p s g (n + 1) last
          = ((run_loop_iter p s g n (some res.ip)).1, n + 1))
    ∧ (∀ (s : Settings) (n : Nat) (last : Option String) (e : PyErr),
        (run_once p s last g).1 = Except.error e →
        run_loop_iter p s g (n + 1) last
          = ((run_loop_iter p s g n last).1, n + 1))
    ∧ (∀ (targets : List Settings) (last : LastIps),
        (∀ r ∈ (multiCycle p g targets last).results, ∃ e, r = Except.error e) →
        (multiCycle p g targets last).lastIps = last)
    ∧ (∀ (s : Settings) (last : LastIps) (res : RunResult),
        (run_once_cached p s (lastLookup last (s.zone_name, s.record_name)) g []).1.1
          = Except.ok res →
        (multiCycle p g [s] last).lastIps
          = lastStore last (s.zone_name, s.record_name) res.ip
        ∧ lastLookup ((multiCycle p g [s] last).lastIps)
            (s.zone_name, s.record_name) = some res.ip) := by
  have hsleep : ∀ (s : Settings) (n : Nat) (last : Option String),
      (run_loop_iter p s g n last).2 = n := by
    intro s n
    induction n with
    | zero => intro last; simp [run_loop_iter]
    | succ k ih => intro last; simp [run_loop_iter, ih]
  refine ⟨hsleep, ?_, ?_, ?_, ?_⟩
  · intro s n last res h
    have hcount := hsleep s n (some res.ip)
    simp [run_loop_iter, h, hcount]
  · intro s n last e h
    have hcount := hsleep s n last
    simp [run_loop_iter, h, hcount]
  · intro targets last hall
    exact multiCycleFrom_all_error p g targets [] last hall
  · intro s last res h
    constructor
    · simp [multiCycle, multiCycleFrom, h]
    · simp [multiCycle, multiCycleFrom, h, lastLookup_lastStore]

/-- Witness for `loop_carries_last_ip_spec`: one loop iteration over a
create-from-scratch target carries `1.2.3.4` forward and sleeps once, and
a single-target cycle stores `1.2.3.4` under the target's key. -/
theorem loop_carries_last_ip_spec_witness :
    (run_loop_iter pAbsent s0 g1234 3 none).2 = 3
    ∧ run_loop_iter pAbsent s0 g1234 1 none = (some "1.2.3.4", 1)
    ∧ (multiCycle pAbsent g1234 [s0] []).lastIps
        = [(("example.com", "home.example.com"), "1.2.3.4")] := by
  have h := loop_carries_last_ip_spec pAbsent g1234
  refine ⟨h.1 s0 3 none, ?_, ?_⟩
  · have h2 := h.2.1 s0 0 none
      { action := "created", ip := "1.2.3.4", record_id := some "cf-new" } (by decide)
    simpa [run_loop_iter] using h2
  · have h5 := h.2.2.2.2 s0 []
      { action := "created", ip := "1.2.3.4", record_id := some "cf-new" } (by decide)
    simpa [lastStore] using h5.1

/-- Helper for claim C8: zipping a single zone replicated `rs.length`
times against `rs` applies the constructor to that zone positionally. -/
theorem zipWith_pyListMul_single {α : Type} (f : String → String → α) (z : String) :
    ∀ rs : List String, List.zipWith f (pyListMul [z] rs.length) rs = rs.map (f z) := by
  intro rs
  induction rs with
  | nil => simp [pyListMul]
  | cons r rest ih => simpa [pyListMul] using ih

/-- Claim C8: a non-empty record-name list whose length differs from the
zone-name list makes the loader fail with the length-mismatch error —
except that exactly one zone with multiple record names yields one target
per record name, all sharing that zone, record names positional. -/
theorem load_all_settings_length_mismatch_spec (env : Env)
    (zs rs : List String) (t : Int) (iv : Option Int)
    (hz : splitCsv (env "CLOUDFLARE_ZONE_NAMES") = zs) (hzne : zs ≠ [])
    (hr : splitCsv (env "CLOUDFLARE_RECORD_NAMES") = rs) (hrne : rs ≠ [])
    (hlen : rs.length ≠ zs.length)
    (httl : ttlOfEnv (env "CLOUDFLARE_TTL") = Except.ok t)
    (hint : intervalOfEnv (env "DDNS_INTERVAL") = Except.ok iv) :
    (∀ z, zs = [z] →
      load_all_settings env = Except.ok (rs.map
        (mkTarget (orNone (env "CLOUDFLARE_API_TOKEN")) (orNone (env "CLOUDFLARE_API_KEY"))
          (orNone (env "CLOUDFLARE_EMAIL"))
          (pyUpper (pyOrStr (env "CLOUDFLARE_RECORD_TYPE") "A")) t
          (parseBoolEnv (env "CLOUDFLARE_PROXIED")) iv
          (parseBoolEnv (env "DDNS_DRY_RUN")) z)))
    ∧ (zs.length ≠ 1 →
        load_all_settings env = Except.error (PyErr.valueError
          "CLOUDFLARE_RECORD_NAMES length must match CLOUDFLARE_ZONE_NAMES length")) := by
  have hrlen : ¬rs.length = 0 := by
    cases rs with
    | nil => exact absurd rfl hrne
    | cons a l => simp
  constructor
  · rintro z rfl
    have hlen1 : ¬rs.length = 1 := by simpa using hlen
    simp [load_all_settings, zonesOfEnv, pairZonesRecords, hz, hr, httl, hint, hrlen, hlen1, zipWith_pyListMul_single]
  · intro hne1
    have hzpos : 0 < zs.length := by
      cases zs with
      | nil => exact absurd rfl hzne
      | cons a l => simp
    simp [load_all_settings, zonesOfEnv, pairZonesRecords, hz, hr, httl, hint, hrlen, hzpos, hlen, hne1]

/-- Witness for `load_all_settings_length_mismatch_spec`: the single zone
`solo.com` with three record names yields three targets sharing the zone,
and two zones with three record names fail with the mismatch error. -/
theorem load_all_settings_length_mismatch_spec_witness :
    load_all_settings envSolo = Except.ok
      (["a.solo.com", "b.solo.com", "c.solo.com"].map
        (mkTarget (some "tok") none none "A" 300 false none false "solo.com"))
    ∧ load_all_settings envMismatch = Except.error (PyErr.valueError
        "CLOUDFLARE_RECORD_NAMES length must match CLOUDFLARE_ZONE_NAMES length") := by
  have h1 := (load_all_settings_length_mismatch_spec envSolo ["solo.com"]
    ["a.solo.com", "b.solo.com", "c.solo.com"] 300 none
    (by decide) (by decide) (by decide) (by decide) (by decide) (by decide) (by decide)).1
    "solo.com" rfl
  have h2 := (load_all_settings_length_mismatch_spec envMismatch ["z1.com", "z2.com"]
    ["a.z1.com", "b.z1.com", "c.z1.com"] 300 none
    (by decide) (by decide) (by decide) (by decide) (by decide) (by decide) (by decide)).2
    (by decide)
  exact ⟨h1, h2⟩

/-- Claim C9 counterexample: the loader accepts an environment populating
both credential branches, and the resulting credential set resolves to
the bearer header, not the email/key pair, although its key+email branch
is populated. -/
theorem auth_headers_both_branches_cex :
    load_all_settings envBoth = Except.ok [sBoth]
    ∧ pyTruthyStr sBoth.api_token = true
    ∧ pyTruthyStr sBoth.api_key = true
    ∧ pyTruthyStr sBoth.email = true
    ∧ Settings.auth_headers sBoth = Except.ok [("Authorization", "Bearer tok")]
    ∧ Settings.auth_headers sBoth
        ≠ Except.ok [("X-Auth-Email", "user@example.com"), ("X-Auth-Key", "key")] := by
  decide

/-- Claim C9 (amended: the token branch takes precedence, so the
email/key pair is produced only when no token is populated): resolving a
credential set with no populated branch fails with the configuration
`ValueError`; a populated token yields the bearer header; a populated
key+email pair without a token yields the email/key header pair. -/
theorem auth_headers_spec (s : Settings) :
    (pyTruthyStr s.api_token = false →
      (pyTruthyStr s.api_key = false ∨ pyTruthyStr s.email = false) →
      s.auth_headers = Except.error (PyErr.valueError
        "No Cloudflare authentication provided. Set CLOUDFLARE_API_TOKEN or (CLOUDFLARE_EMAIL + CLOUDFLARE_API_KEY)"))
    ∧ (∀ t, s.api_token = some t → t ≠ "" →
        s.auth_headers = Except.ok [("Authorization", "Bearer " ++ t)])
    ∧ (∀ k e, pyTruthyStr s.api_token = false → s.api_key = some k → k ≠ "" →
        s.email = some e → e ≠ "" →
        s.auth_headers = Except.ok [("X-Auth-Email", e), ("X-Auth-Key", k)]) := by
  refine ⟨?_, ?_, ?_⟩
  · intro h1 h2
    rcases h2 with h2 | h2 <;> simp [Settings.auth_headers, h1, h2]
  · intro t ht hne
    simp [Settings.auth_headers, pyTruthyStr, ht, hne]
  · intro k e h1 hk hkne he hene
    cases hat : s.api_token with
    | none => simp [Settings.auth_headers, hat, pyTruthyStr, hk, hkne, he, hene]
    | some tok =>
      rw [hat] at h1
      simp only [pyTruthyStr, decide_not] at h1
      simp at h1
      simp [Settings.auth_headers, hat, pyTruthyStr, h1, hk, hkne, he, hene]

/-- Witness for `auth_headers_spec` on the three credential shapes. -/
theorem auth_headers_spec_witness :
    Settings.auth_headers s0 = Except.ok [("Authorization", "Bearer tok")]
    ∧ Settings.auth_headers sKeyMail
        = Except.ok [("X-Auth-Email", "user@example.com"), ("X-Auth-Key", "key")]
    ∧ Settings.auth_headers sNoAuth = Except.error (PyErr.valueError
        "No Cloudflare authentication provided. Set CLOUDFLARE_API_TOKEN or (CLOUDFLARE_EMAIL + CLOUDFLARE_API_KEY)") :=
  ⟨(auth_headers_spec s0).2.1 "tok" rfl (by decide),
   (auth_headers_spec sKeyMail).2.2 "key" "user@example.com" (by decide) rfl (by decide)
     rfl (by decide),
   (auth_headers_spec sNoAuth).1 (by decide) (Or.inl (by decide))⟩

/-- Helper for claim C10: every element of the loader's zip carries the
shared loop-invariant fields. -/
theorem mkTarget_mem {tok key em : Option String} {rt : String} {t : Int}
    {px : Bool} {iv : Option Int} {dr : Bool} :
    ∀ (zs rs : List String) (s : Settings),
      s ∈ List.zipWith (mkTarget tok key em rt t px iv dr) zs rs →
      s.api_token = tok ∧ s.api_key = key ∧ s.email = em ∧ s.record_type = rt
      ∧ s.ttl = t ∧ s.proxied = px ∧ s.interval = iv ∧ s.dry_run = dr := by
  intro zs
  induction zs with
  | nil => intro rs s h; simp at h
  | cons z zrest ih =>
    intro rs s h
    cases rs with
    | nil => simp at h
    | cons r rrest =>
      rcases (by simpa using h : s = mkTarget tok key em rt t px iv dr z r
          ∨ s ∈ List.zipWith (mkTarget tok key em rt t px iv dr) zrest rrest) with h1 | h2
      · subst h1; exact ⟨rfl, rfl, rfl, rfl, rfl, rfl, rfl, rfl⟩
      · exact ih rrest s h2

/-- Claim C10: every target list produced by one `load_all_settings` call
is homogeneous — all entries carry identical credentials, record type,
ttl, proxied, interval and dry-run values; only zone and record name
vary. -/
theorem load_all_settings_homogeneous (env : Env) (l : List Settings)
    (h : load_all_settings env = Except.ok l) :
    ∀ s1 ∈ l, ∀ s2 ∈ l,
      s1.api_token = s2.api_token ∧ s1.api_key = s2.api_key ∧ s1.email = s2.email
      ∧ s1.record_type = s2.record_type ∧ s1.ttl = s2.ttl ∧ s1.proxied = s2.proxied
      ∧ s1.interval = s2.interval ∧ s1.dry_run = s2.dry_run := by
  unfold load_all_settings at h
  repeat' split at h
  any_goals exact Except.noConfusion h
  all_goals
    (injection h with h; subst h;
     intro s1 h1 s2 h2;
     obtain ⟨a1, b1, c1, d1, e1, f1, g1, k1⟩ := mkTarget_mem _ _ s1 h1;
     obtain ⟨a2, b2, c2, d2, e2, f2, g2, k2⟩ := mkTarget_mem _ _ s2 h2;
     exact ⟨a1.trans a2.symm, b1.trans b2.symm, c1.trans c2.symm, d1.trans d2.symm,
       e1.trans e2.symm, f1.trans f2.symm, g1.trans g2.symm, k1.trans k2.symm⟩)

/-- Witness for `load_all_settings_homogeneous`: the two targets loaded
from `envTwo` share every field but zone and record name. -/
theorem load_all_settings_homogeneous_witness :
    load_all_settings envTwo = Except.ok twoTargets
    ∧ ∀ s1 ∈ twoTargets, ∀ s2 ∈ twoTargets,
        s1.api_token = s2.api_token ∧ s1.api_key = s2.api_key ∧ s1.email = s2.email
        ∧ s1.record_type = s2.record_type ∧ s1.ttl = s2.ttl ∧ s1.proxied = s2.proxied
        ∧ s1.interval = s2.interval ∧ s1.dry_run = s2.dry_run := by
  have hload : load_all_settings envTwo = Except.ok twoTargets := by decide
  exact ⟨hload, load_all_settings_homogeneous envTwo twoTargets hload⟩

end Ddns
